import Mathlib

/-!
Verification development for two automation scripts of this repository:
`src/pyfiles/automate.py` (Dataplex / BigQuery provisioning over uploaded
CSV files) and
`src/blueprints/data-solutions/data-platform-minimal/python/main.py`
(CSV to Parquet conversion between object-store locations).

The scripts are shallowly embedded: every pure computation of the Python
source (string manipulation, request-object construction, branching on
service responses) becomes a Lean function, and every call into a vendor
SDK is parameterised by the response the service gives, so that each
script function becomes a pure function from its arguments and the
service responses to its Python result, the list of API calls it issued,
and the list of messages it printed.
-/

namespace PyStr

/-- Strips `pat` from the front of `s`: `some rest` when `s = pat ++ rest`,
`none` otherwise.  Used to model Python substring tests and `str.replace`. -/
def stripPre : List Char → List Char → Option (List Char)
  | [], s => some s
  | _ :: _, [] => none
  | p :: ps, c :: cs => if p = c then stripPre ps cs else none

/-- Scans `s` for an occurrence of `pat` as a contiguous sublist; models the
Python membership test `pat in s` on strings (for non-empty `pat`). -/
def subScan (pat : List Char) : List Char → Bool
  | [] => pat.isEmpty
  | c :: cs => (stripPre pat (c :: cs)).isSome || subScan pat cs

/-- Python `sub in s` (substring containment) on strings. -/
def pyIn (sub s : String) : Bool := subScan sub.data s.data

/-- Python `s.endswith(suffix)` on strings. -/
def pyEndsWith (s sfx : String) : Bool := sfx.data.isSuffixOf s.data

/-- Fuel-bounded replace-all on character lists; with `fuel ≥ s.length` and a
non-empty pattern this is exactly CPython `str.replace` (left-to-right,
non-overlapping, replace every occurrence). -/
def replaceFuel (pat rep : List Char) : Nat → List Char → List Char
  | _, [] => []
  | 0, s => s
  | Nat.succ fuel, c :: cs =>
    match stripPre pat (c :: cs) with
    | some rest => rep ++ replaceFuel pat rep fuel rest
    | none => c :: replaceFuel pat rep fuel cs

/-- Python `s.replace(pat, rep)` for a non-empty `pat`. -/
def pyReplace (s pat rep : String) : String :=
  ⟨replaceFuel pat.data rep.data s.data.length s.data⟩

end PyStr

namespace Automate

/-- Script configuration constants (automate.py lines 7-16); `PROJECT_ID`
models the fallback literal used when the environment variable is unset. -/
def PROJECT_ID : String := "your-gcp-project-id"

def REGION : String := "us-central1"

def GCS_BUCKET_NAME : String := "your-csv-source-bucket"

def LAKE_ID : String := "my-csv-lake"

def ZONE_ID : String := "raw-csv-data"

def ASSET_ID : String := "csv-files-asset"

def BIGQUERY_DATASET_ID : String := "raw_csv_data_bq"

def LOCAL_CSV_DIR : String := "csv_files"

/-- Exceptions the script's handlers distinguish: `Conflict` and `NotFound`
from the vendor SDK, and every other exception carried as a message. -/
inductive PyExc
  | Conflict
  | NotFound
  | other (msg : String)
deriving DecidableEq

/-- Outcome of one call into a vendor SDK: a returned value or a raised
exception.  Script functions are parameterised by these responses. -/
inductive ApiResp (α : Type)
  | success (a : α)
  | raise (e : PyExc)
deriving DecidableEq

/-- Result of running a Python function: normal return or raised exception. -/
inductive PyResult (α : Type)
  | ret (a : α)
  | raised (e : PyExc)
deriving DecidableEq

/-- The Lake request message (automate.py line 36): only a display name, no
discovery or CSV configuration. -/
structure Lake where
  display_name : String
deriving DecidableEq

inductive ZoneType
  | RAW
  | CURATED
deriving DecidableEq

inductive LocationType
  | MULTI_REGION
  | SINGLE_REGION
deriving DecidableEq

/-- CSV discovery options (automate.py lines 63-67 and 104-108). -/
structure CsvOptions where
  header_rows : Nat
  delimiter : String
  disable_type_inference : Bool
deriving DecidableEq

structure ZoneResourceSpec where
  location_type : LocationType
deriving DecidableEq

structure ZoneDiscoverySpec where
  enabled : Bool
  csv_options : CsvOptions
deriving DecidableEq

/-- The Zone request message (automate.py lines 55-72). -/
structure Zone where
  display_name : String
  type_ : ZoneType
  resource_spec : ZoneResourceSpec
  discovery_spec : ZoneDiscoverySpec
deriving DecidableEq

inductive AssetResourceType
  | STORAGE_BUCKET
deriving DecidableEq

structure AssetResourceSpec where
  type_ : AssetResourceType
  name : String
deriving DecidableEq

structure AssetDiscoverySpec where
  enabled : Bool
  csv_options : CsvOptions
deriving DecidableEq

/-- The Asset request message (automate.py lines 95-120). -/
structure Asset where
  display_name : String
  resource_spec : AssetResourceSpec
  discovery_spec : AssetDiscoverySpec
deriving DecidableEq

/-- The BigQuery dataset message (automate.py lines 143-145). -/
structure Dataset where
  project : String
  dataset_id : String
  location : String
deriving DecidableEq

/-- An opaque fetched BigQuery table handle. -/
structure BqTable where
  table_id : String
deriving DecidableEq

inductive SourceFormat
  | CSV
deriving DecidableEq

/-- The load-job configuration built at automate.py lines 166-171. -/
structure LoadJobConfig where
  source_format : SourceFormat
  skip_leading_rows : Nat
  autodetect : Bool
  max_bad_records : Nat
deriving DecidableEq

/-- One call into the Dataplex or BigQuery SDK, with the request data the
script passes to it. -/
inductive ApiCall
  | createLake (parent lake_id : String) (lake : Lake)
  | getLake (name : String)
  | createZone (parent zone_id : String) (zone : Zone)
  | getZone (name : String)
  | createAsset (parent asset_id : String) (asset : Asset)
  | getAsset (name : String)
  | createDataset (d : Dataset)
  | getDataset (project dataset_id : String)
  | getTable (project dataset_id table_id : String)
  | loadTableFromUri (gcs_uri project dataset_id table_id : String) (cfg : LoadJobConfig)
deriving DecidableEq

/-- One line of console output, abstracted to its content. -/
inductive LogEvent
  | creating (id : String)
  | createdOk (id : String)
  | alreadyExists (id : String)
  | errorCreating (id : String) (e : PyExc)
  | uploadOk (localPath dest : String)
  | errorUploading (localPath : String) (e : PyExc)
  | dirNotFound (dir : String)
  | noCsvFiles (dir : String)
  | banner (s : String)
deriving DecidableEq

/-- What running one script function produced: its Python result, the API
calls it issued in order, and the lines it printed. -/
structure CallOutcome (α : Type) where
  result : PyResult α
  calls : List ApiCall
  logs : List LogEvent
deriving DecidableEq

/-- Shallow embedding of `upload_csv_to_gcs` (automate.py lines 20-30): the
upload either succeeds with a log line, or logs the error and re-raises. -/
def upload_csv_to_gcs (local_file_path destination_blob_name : String)
    (resp : ApiResp Unit) : PyResult Unit × List LogEvent :=
  match resp with
  | .success _ => (.ret (), [.uploadOk local_file_path destination_blob_name])
  | .raise e => (.raised e, [.errorUploading local_file_path e])

/-- Shallow embedding of `create_dataplex_lake` (automate.py lines 32-49).
`createResp` is the service's response to `client.create_lake` together with
waiting on the returned operation; `getResp` is the response to
`client.get_lake` inside the `except Conflict` handler.  An exception raised
by that fetch is not caught by the later generic handler in Python, so it
propagates without an error log. -/
def create_dataplex_lake (project_id region lake_id display_name : String)
    (createResp getResp : ApiResp Lake) : CallOutcome Lake :=
  let parent := "projects/" ++ project_id ++ "/locations/" ++ region
  let lake : Lake := { display_name := display_name }
  match createResp with
  | .success r =>
      { result := .ret r
        calls := [.createLake parent lake_id lake]
        logs := [.creating lake_id, .createdOk lake_id] }
  | .raise .Conflict =>
      match getResp with
      | .success r =>
          { result := .ret r
            calls := [.createLake parent lake_id lake, .getLake (parent ++ "/lakes/" ++ lake_id)]
            logs := [.alreadyExists lake_id] }
      | .raise e =>
          { result := .raised e
            calls := [.createLake parent lake_id lake, .getLake (parent ++ "/lakes/" ++ lake_id)]
            logs := [.alreadyExists lake_id] }
  | .raise e =>
      { result := .raised e
        calls := [.createLake parent lake_id lake]
        logs := [.errorCreating lake_id e] }

/-- The Zone request message built by `create_dataplex_zone`
(automate.py lines 55-72), including the region-dependent location type of
line 59 and the fixed CSV discovery options of lines 63-67. -/
def zoneMessage (region display_name : String) : Zone :=
  { display_name := display_name
    type_ := .RAW
    resource_spec :=
      { location_type :=
          if PyStr.pyIn "us" region || PyStr.pyIn "eu" region then
            .MULTI_REGION
          else
            .SINGLE_REGION }
    discovery_spec :=
      { enabled := true
        csv_options :=
          { header_rows := 1
            delimiter := ","
            disable_type_inference := false } } }

/-- Shallow embedding of `create_dataplex_zone` (automate.py lines 51-85),
with the same response-parameterisation as the lake function. -/
def create_dataplex_zone (project_id region lake_id zone_id display_name : String)
    (createResp getResp : ApiResp Zone) : CallOutcome Zone :=
  let parent := "projects/" ++ project_id ++ "/locations/" ++ region ++ "/lakes/" ++ lake_id
  let zone := zoneMessage region display_name
  match createResp with
  | .success r =>
      { result := .ret r
        calls := [.createZone parent zone_id zone]
        logs := [.creating zone_id, .createdOk zone_id] }
  | .raise .Conflict =>
      match getResp with
      | .success r =>
          { result := .ret r
            calls := [.createZone parent zone_id zone, .getZone (parent ++ "/zones/" ++ zone_id)]
            logs := [.alreadyExists zone_id] }
      | .raise e =>
          { result := .raised e
            calls := [.createZone parent zone_id zone, .getZone (parent ++ "/zones/" ++ zone_id)]
            logs := [.alreadyExists zone_id] }
  | .raise e =>
      { result := .raised e
        calls := [.createZone parent zone_id zone]
        logs := [.errorCreating zone_id e] }

/-- The Asset request message built by `create_dataplex_asset`
(automate.py lines 93-120): a storage-bucket resource reference and the
fixed CSV discovery options of lines 104-108. -/
def assetMessage (project_id asset_id bucket_name : String) : Asset :=
  { display_name := asset_id
    resource_spec :=
      { type_ := .STORAGE_BUCKET
        name := "projects/" ++ project_id ++ "/buckets/" ++ bucket_name }
    discovery_spec :=
      { enabled := true
        csv_options :=
          { header_rows := 1
            delimiter := ","
            disable_type_inference := false } } }

/-- Shallow embedding of `create_dataplex_asset` (automate.py lines 87-138).
The `bq_dataset_id` parameter is accepted but, as in the source, never used
in the request. -/
def create_dataplex_asset
    (project_id region lake_id zone_id asset_id bucket_name bq_dataset_id : String)
    (createResp getResp : ApiResp Asset) : CallOutcome Asset :=
  let parent := "projects/" ++ project_id ++ "/locations/" ++ region ++ "/lakes/" ++
    lake_id ++ "/zones/" ++ zone_id
  let asset := assetMessage project_id asset_id bucket_name
  match createResp with
  | .success r =>
      { result := .ret r
        calls := [.createAsset parent asset_id asset]
        logs := [.creating asset_id, .createdOk asset_id] }
  | .raise .Conflict =>
      match getResp with
      | .success r =>
          { result := .ret r
            calls := [.createAsset parent asset_id asset, .getAsset (parent ++ "/assets/" ++ asset_id)]
            logs := [.alreadyExists asset_id] }
      | .raise e =>
          { result := .raised e
            calls := [.createAsset parent asset_id asset, .getAsset (parent ++ "/assets/" ++ asset_id)]
            logs := [.alreadyExists asset_id] }
  | .raise e =>
      { result := .raised e
        calls := [.createAsset parent asset_id asset]
        logs := [.errorCreating asset_id e] }

/-- Shallow embedding of `create_bigquery_dataset` (automate.py lines
140-156): the same attempt-create / on-conflict-fetch pattern. -/
def create_bigquery_dataset (project_id dataset_id region : String)
    (createResp getResp : ApiResp Dataset) : CallOutcome Dataset :=
  let dataset : Dataset := { project := project_id, dataset_id := dataset_id, location := region }
  match createResp with
  | .success r =>
      { result := .ret r
        calls := [.createDataset dataset]
        logs := [.createdOk dataset_id] }
  | .raise .Conflict =>
      match getResp with
      | .success r =>
          { result := .ret r
            calls := [.createDataset dataset, .getDataset project_id dataset_id]
            logs := [.alreadyExists dataset_id] }
      | .raise e =>
          { result := .raised e
            calls := [.createDataset dataset, .getDataset project_id dataset_id]
            logs := [.alreadyExists dataset_id] }
  | .raise e =>
      { result := .raised e
        calls := [.createDataset dataset]
        logs := [.errorCreating dataset_id e] }

/-- Shallow embedding of `create_bigquery_external_table_from_csv`
(automate.py lines 158-188).  Despite its name and docstring, the body first
fetches the table (`get_table`); when the fetch succeeds it returns `None`
without any creation attempt, and on `NotFound` it submits a load job
(`load_table_from_uri` with a `LoadJobConfig`) and then fetches and returns
the table.  The load job and the final fetch run inside the
`except NotFound:` handler, so exceptions they raise are not caught by the
trailing generic handler and propagate without an error log. -/
def create_bigquery_external_table_from_csv
    (project_id dataset_id table_id gcs_uri : String) (skip_leading_rows : Nat)
    (getResp : ApiResp BqTable) (loadResp : ApiResp Unit)
    (getAgainResp : ApiResp BqTable) : CallOutcome (Option BqTable) :=
  let job_config : LoadJobConfig :=
    { source_format := .CSV
      skip_leading_rows := skip_leading_rows
      autodetect := true
      max_bad_records := 0 }
  match getResp with
  | .success _ =>
      { result := .ret none
        calls := [.getTable project_id dataset_id table_id]
        logs := [.alreadyExists table_id] }
  | .raise .NotFound =>
      match loadResp with
      | .success _ =>
          match getAgainResp with
          | .success t =>
              { result := .ret (some t)
                calls := [.getTable project_id dataset_id table_id,
                  .loadTableFromUri gcs_uri project_id dataset_id table_id job_config,
                  .getTable project_id dataset_id table_id]
                logs := [.creating table_id, .createdOk table_id] }
          | .raise e =>
              { result := .raised e
                calls := [.getTable project_id dataset_id table_id,
                  .loadTableFromUri gcs_uri project_id dataset_id table_id job_config,
                  .getTable project_id dataset_id table_id]
                logs := [.creating table_id, .createdOk table_id] }
      | .raise e =>
          { result := .raised e
            calls := [.getTable project_id dataset_id table_id,
              .loadTableFromUri gcs_uri project_id dataset_id table_id job_config]
            logs := [.creating table_id] }
  | .raise e =>
      { result := .raised e
        calls := [.getTable project_id dataset_id table_id]
        logs := [.errorCreating table_id e] }

end Automate

namespace Automate

/-- Calls that attempt to create or materialise a resource. -/
def ApiCall.isCreateAttempt : ApiCall → Bool
  | .createLake _ _ _ => true
  | .createZone _ _ _ => true
  | .createAsset _ _ _ => true
  | .createDataset _ => true
  | .loadTableFromUri _ _ _ _ _ => true
  | _ => false

/-- The CSV discovery options a creation call carries in its request
message, when its message type has such a field. -/
def ApiCall.csvConfig : ApiCall → Option CsvOptions
  | .createZone _ _ z => some z.discovery_spec.csv_options
  | .createAsset _ _ a => some a.discovery_spec.csv_options
  | _ => none

/-- The fixed CSV discovery configuration the spec names: one header row,
comma delimiter, type inference enabled (not disabled). -/
def fixedCsvOptions : CsvOptions :=
  { header_rows := 1, delimiter := ",", disable_type_inference := false }

/-- Modelled from the spec glossary: an external table "reads data in place
from object storage rather than copying it into managed storage"; a load
job ingests (copies) the source rows into managed storage. -/
inductive TableMaterialization
  | managedCopy
  | externalInPlace
deriving DecidableEq

/-- Classifies each API call by how it materialises table data, when it
does: `load_table_from_uri` with a `LoadJobConfig` is the vendor's load
job, which copies the source object's rows into the engine's managed
storage; no call the script makes defines an in-place external table. -/
def materializationOf : ApiCall → Option TableMaterialization
  | .loadTableFromUri _ _ _ _ _ => some .managedCopy
  | _ => none

/-- Runs `create_dataplex_lake` against a service whose state is the list
of existing lake ids: creation succeeds and records the id iff it is
absent, and reports `Conflict` otherwise; fetching an existing lake
succeeds.  This is the service behaviour the conflict handler assumes. -/
def runLakeAgainstService (st : List String)
    (project_id region lake_id display_name : String) :
    List String × CallOutcome Lake :=
  if lake_id ∈ st then
    (st, create_dataplex_lake project_id region lake_id display_name
      (.raise .Conflict) (.success { display_name := display_name }))
  else
    (lake_id :: st, create_dataplex_lake project_id region lake_id display_name
      (.success { display_name := display_name })
      (.success { display_name := display_name }))

/-- One step of the script's observable behaviour. -/
inductive Event
  | log (l : LogEvent)
  | upload (localPath bucket dest : String)
  | call (c : ApiCall)
  | sleep (seconds : Nat)
deriving DecidableEq

/-- How `main` ends: falls off the end normally, or an uncaught
exception terminates the script. -/
inductive MainOutcome
  | normal
  | raised (e : PyExc)
deriving DecidableEq

/-- The environment `main` runs against: the local filesystem and the
response of each vendor API call it can make (table responses keyed by
table name). -/
structure Env where
  dirExists : Bool
  listing : List String
  uploadResp : String → ApiResp Unit
  lakeCreate : ApiResp Lake
  lakeGet : ApiResp Lake
  zoneCreate : ApiResp Zone
  zoneGet : ApiResp Zone
  assetCreate : ApiResp Asset
  assetGet : ApiResp Asset
  datasetCreate : ApiResp Dataset
  datasetGet : ApiResp Dataset
  tableGet : String → ApiResp BqTable
  tableLoad : String → ApiResp Unit
  tableGetAgain : String → ApiResp BqTable

/-- The upload loop of `main` (automate.py lines 214-219): upload each file
to `csv_data/<name>`, stopping at (and re-raising) the first failure. -/
def uploadLoop (env : Env) : List String → List Event × Option PyExc
  | [] => ([], none)
  | f :: rest =>
    let localPath := LOCAL_CSV_DIR ++ "/" ++ f
    let dest := "csv_data/" ++ f
    match upload_csv_to_gcs localPath dest (env.uploadResp f) with
    | (.ret _, logs) =>
      let next := uploadLoop env rest
      (Event.upload localPath GCS_BUCKET_NAME dest :: (logs.map Event.log ++ next.1), next.2)
    | (.raised e, logs) =>
      (Event.upload localPath GCS_BUCKET_NAME dest :: logs.map Event.log, some e)

/-- `os.path.basename`: the substring after the last slash. -/
def basename (p : String) : String :=
  ⟨(p.data.reverse.takeWhile (fun c => c ≠ '/')).reverse⟩

/-- The table name `main` derives from a GCS URI (automate.py line 246):
basename, drop `.csv`, dashes to underscores. -/
def tableNameOfUri (uri : String) : String :=
  PyStr.pyReplace (PyStr.pyReplace (basename uri) ".csv" "") "-" "_"

/-- The table-creation loop of `main` (automate.py lines 244-247),
stopping at the first uncaught exception. -/
def tableLoop (env : Env) : List String → List Event × Option PyExc
  | [] => ([], none)
  | uri :: rest =>
    let t := tableNameOfUri uri
    let o := create_bigquery_external_table_from_csv PROJECT_ID BIGQUERY_DATASET_ID t uri 1
      (env.tableGet t) (env.tableLoad t) (env.tableGetAgain t)
    let evs := o.calls.map Event.call ++ o.logs.map Event.log
    match o.result with
    | .ret _ =>
      let next := tableLoop env rest
      (evs ++ next.1, next.2)
    | .raised e => (evs, some e)

/-- Events of one provisioning call: its API calls then its log lines. -/
def eventsOf {α : Type} (o : CallOutcome α) : List Event :=
  o.calls.map Event.call ++ o.logs.map Event.log

/-- The lake step of `main` (automate.py line 222). -/
def lakeOut (env : Env) : CallOutcome Lake :=
  create_dataplex_lake PROJECT_ID REGION LAKE_ID "My CSV Data Lake" env.lakeCreate env.lakeGet

/-- The zone step of `main` (automate.py line 225). -/
def zoneOut (env : Env) : CallOutcome Zone :=
  create_dataplex_zone PROJECT_ID REGION LAKE_ID ZONE_ID "Raw CSV Zone" env.zoneCreate env.zoneGet

/-- The asset step of `main` (automate.py line 228). -/
def assetOut (env : Env) : CallOutcome Asset :=
  create_dataplex_asset PROJECT_ID REGION LAKE_ID ZONE_ID ASSET_ID GCS_BUCKET_NAME
    BIGQUERY_DATASET_ID env.assetCreate env.assetGet

/-- The dataset step of `main` (automate.py line 238). -/
def datasetOut (env : Env) : CallOutcome Dataset :=
  create_bigquery_dataset PROJECT_ID BIGQUERY_DATASET_ID REGION env.datasetCreate env.datasetGet

/-- The informational prints of automate.py lines 230-233, before the
sleep. -/
def discoveryNotes : List Event :=
  [Event.log (LogEvent.banner "dataplex discovery process started"),
   Event.log (LogEvent.banner "dataplex will discover files and create catalog entities"),
   Event.log (LogEvent.banner "this may take a few minutes"),
   Event.log (LogEvent.banner "monitor discovery status in the dataplex ui")]

/-- The closing prints of automate.py lines 249-254. -/
def completionNotes : List Event :=
  [Event.log (LogEvent.banner "automation complete")]

/-- Shallow embedding of `main` (automate.py lines 190-254): the early
returns for a missing directory or no CSV files, the upload loop, the
lake / zone / asset steps, the unconditional `time.sleep(60)` of line 235,
the dataset step, and the table loop.  A raised exception anywhere stops
the sequence there with that exception. -/
def mainRun (env : Env) : List Event × MainOutcome :=
  if env.dirExists = false then
    ([Event.log (LogEvent.dirNotFound LOCAL_CSV_DIR)], MainOutcome.normal)
  else
    let csvfiles := env.listing.filter (fun f => PyStr.pyEndsWith f ".csv")
    if csvfiles = [] then
      ([Event.log (LogEvent.noCsvFiles LOCAL_CSV_DIR)], MainOutcome.normal)
    else
      let up := uploadLoop env csvfiles
      match up.2 with
      | some e => (up.1, MainOutcome.raised e)
      | none =>
        let uris := csvfiles.map (fun f => "gs://" ++ GCS_BUCKET_NAME ++ "/csv_data/" ++ f)
        match (lakeOut env).result with
        | .raised e => (up.1 ++ eventsOf (lakeOut env), MainOutcome.raised e)
        | .ret _ =>
          match (zoneOut env).result with
          | .raised e =>
            (up.1 ++ eventsOf (lakeOut env) ++ eventsOf (zoneOut env), MainOutcome.raised e)
          | .ret _ =>
            match (assetOut env).result with
            | .raised e =>
              (up.1 ++ eventsOf (lakeOut env) ++ eventsOf (zoneOut env) ++
                eventsOf (assetOut env), MainOutcome.raised e)
            | .ret _ =>
              let pre := up.1 ++ eventsOf (lakeOut env) ++ eventsOf (zoneOut env) ++
                eventsOf (assetOut env) ++ discoveryNotes ++ [Event.sleep 60]
              match (datasetOut env).result with
              | .raised e => (pre ++ eventsOf (datasetOut env), MainOutcome.raised e)
              | .ret _ =>
                let t := tableLoop env uris
                match t.2 with
                | some e => (pre ++ eventsOf (datasetOut env) ++ t.1, MainOutcome.raised e)
                | none =>
                  (pre ++ eventsOf (datasetOut env) ++ t.1 ++ completionNotes,
                    MainOutcome.normal)

/-- `main` reaches and completes asset provisioning: the directory exists,
there are CSV files, all uploads succeed, and the lake, zone, and asset
steps all return (created or reused) rather than raise. -/
def reachesAssetProvisioned (env : Env) : Prop :=
  env.dirExists = true ∧
  env.listing.filter (fun f => PyStr.pyEndsWith f ".csv") ≠ [] ∧
  (uploadLoop env (env.listing.filter (fun f => PyStr.pyEndsWith f ".csv"))).2 = none ∧
  (∃ l, (lakeOut env).result = .ret l) ∧
  (∃ z, (zoneOut env).result = .ret z) ∧
  (∃ a, (assetOut env).result = .ret a)

/-- Event classification: the fixed pause. -/
def Event.isSleep : Event → Bool
  | .sleep _ => true
  | _ => false

/-- Calls into the BigQuery API (dataset or table side). -/
def ApiCall.isBq : ApiCall → Bool
  | .createDataset _ => true
  | .getDataset _ _ => true
  | .getTable _ _ _ => true
  | .loadTableFromUri _ _ _ _ _ => true
  | _ => false

/-- Events that are BigQuery dataset or table calls. -/
def Event.isBqStep : Event → Bool
  | .call c => c.isBq
  | _ => false

/-- Events that touch external state: uploads and any vendor API call. -/
def Event.isExternalAction : Event → Bool
  | .upload _ _ _ => true
  | .call _ => true
  | .sleep _ => false
  | .log _ => false

/-- Log lines that report an exception. -/
def LogEvent.isError : LogEvent → Bool
  | .errorCreating _ _ => true
  | .errorUploading _ _ => true
  | _ => false

/-- A fully successful environment with one local CSV file, used to
instantiate the theorems below at concrete inputs. -/
def envOk : Env :=
  { dirExists := true
    listing := ["data1.csv"]
    uploadResp := fun _ => .success ()
    lakeCreate := .success { display_name := "My CSV Data Lake" }
    lakeGet := .success { display_name := "My CSV Data Lake" }
    zoneCreate := .success (zoneMessage REGION "Raw CSV Zone")
    zoneGet := .success (zoneMessage REGION "Raw CSV Zone")
    assetCreate := .success (assetMessage PROJECT_ID ASSET_ID GCS_BUCKET_NAME)
    assetGet := .success (assetMessage PROJECT_ID ASSET_ID GCS_BUCKET_NAME)
    datasetCreate :=
      .success { project := PROJECT_ID, dataset_id := BIGQUERY_DATASET_ID, location := REGION }
    datasetGet :=
      .success { project := PROJECT_ID, dataset_id := BIGQUERY_DATASET_ID, location := REGION }
    tableGet := fun _ => .raise .NotFound
    tableLoad := fun _ => .success ()
    tableGetAgain := fun t => .success { table_id := t } }

/-- `envOk` with a missing local CSV directory. -/
def envNoDir : Env := { envOk with dirExists := false }

/-- `envOk` with a directory listing containing no `.csv` filename. -/
def envNoCsv : Env := { envOk with listing := ["readme.txt"] }

/-- `envOk` where the lake creation call fails with a server error. -/
def envLakeBoom : Env := { envOk with lakeCreate := .raise (.other "server error") }

/-- `envOk` where the zone creation call fails with a server error. -/
def envZoneBoom : Env := { envOk with zoneCreate := .raise (.other "server error") }

/-- `envOk` where the asset creation call fails with a server error. -/
def envAssetBoom : Env := { envOk with assetCreate := .raise (.other "server error") }

/-- `envOk` where the dataset creation call fails with a server error. -/
def envDatasetBoom : Env :=
  { envOk with datasetCreate := .raise (.other "server error") }

/-- `envOk` where the table load job fails with a server error. -/
def envTableBoom : Env :=
  { envOk with tableLoad := fun _ => .raise (.other "server error") }

end Automate

namespace ParquetConvert

/-- Configuration of the conversion script (main.py lines 9-11). -/
def bucket_name : String := "demo-lnd-cs-0"

def source_prefix : String := "synthea/"

def target_prefix : String := "landing-parquet/"

/-- The fixed list of 18 input filenames (main.py lines 13-19). -/
def csv_files : List String :=
  ["allergies.csv", "careplans.csv", "claims.csv", "claims_transactions.csv",
   "conditions.csv", "devices.csv", "encounters.csv", "imaging_studies.csv",
   "immunizations.csv", "medications.csv", "observations.csv", "organizations.csv",
   "patients.csv", "payer_transitions.csv", "payers.csv", "procedures.csv",
   "providers.csv", "supplies.csv"]

/-- One observable step of the conversion script. -/
inductive GEvent
  | download (key : String)
  | convert (localCsv localParquet : String)
  | upload (key : String)
  | printed (file : String)
deriving DecidableEq

/-- The loop body for one file (main.py lines 23-39): download
`synthea/<file>` to `/tmp/<file>`, convert it to Parquet at
`/tmp/<file with .csv replaced by .parquet>`, upload the result to
`landing-parquet/<file with .csv replaced by .parquet>`, print. -/
def processFile (file : String) : List GEvent :=
  let local_csv := "/tmp/" ++ file
  let local_parquet := PyStr.pyReplace local_csv ".csv" ".parquet"
  [GEvent.download ( source_prefix ++ file),
   GEvent.convert local_csv local_parquet,
   GEvent.upload ( target_prefix ++ PyStr.pyReplace file ".csv" ".parquet"),
   GEvent.printed file]

/-- The whole conversion script: the loop over the fixed filename list. -/
def convertAll : List GEvent := csv_files.flatMap processFile

/-- The spec's description of the output key: the filename with its `.csv`
extension substituted by `.parquet`.  Stated independently of the source's
replace-all; the theorem below checks they agree on every listed file. -/
def substituteCsvExt (file : String) : String :=
  ⟨file.data.take (file.data.length - 4) ++ (".parquet").data⟩

end ParquetConvert
namespace PyStr

theorem stripPre_eq_some {pat s t : List Char} :
    stripPre pat s = some t ↔ s = pat ++ t := by
  induction pat generalizing s with
  | nil => simp [stripPre]
  | cons p ps ih =>
    cases s with
    | nil => simp [stripPre]
    | cons c cs =>
      by_cases hpc : p = c
      · subst hpc
        simp [stripPre, ih]
      · simp [stripPre, hpc]
        intro h
        exact fun _ => hpc h.symm

theorem subScan_iff {pat s : List Char} :
    subScan pat s = true ↔ ∃ l r : List Char, s = l ++ pat ++ r := by
  induction s with
  | nil =>
    constructor
    · intro h
      refine ⟨[], [], ?_⟩
      have : pat = [] := List.isEmpty_iff.mp (by simpa [subScan] using h)
      simp [this]
    · rintro ⟨l, r, h⟩
      have h1 : l ++ pat = [] := (List.append_eq_nil.mp h.symm).1
      have : pat = [] := (List.append_eq_nil.mp h1).2
      simp [subScan, this]
  | cons c cs ih =>
    simp only [subScan, Bool.or_eq_true, ih, Option.isSome_iff_exists]
    constructor
    · rintro (⟨t, ht⟩ | ⟨l, r, hlr⟩)
      · exact ⟨[], t, by simpa using stripPre_eq_some.mp ht⟩
      · exact ⟨c :: l, r, by simp [hlr]⟩
    · rintro ⟨l, r, hlr⟩
      cases l with
      | nil =>
        exact Or.inl ⟨r, stripPre_eq_some.mpr (by simpa using hlr)⟩
      | cons x xs =>
        simp only [List.cons_append, List.cons.injEq] at hlr
        exact Or.inr ⟨xs, r, hlr.2⟩

theorem pyIn_iff {sub s : String} :
    pyIn sub s = true ↔ ∃ l r : List Char, s.data = l ++ sub.data ++ r :=
  subScan_iff

end PyStr

example : PyStr.pyReplace "claims.csv" ".csv" ".parquet" = "claims.parquet" := by decide

example : PyStr.pyReplace "my-file.csv" "-" "_" = "my_file.csv" := by decide

example : PyStr.pyIn "us" "australia-southeast1" = true := by decide

example : PyStr.pyIn "eu" "asia-northeast1" = false := by decide

example : PyStr.pyEndsWith "data1.csv" ".csv" = true := by decide

namespace Automate

/-- C1: counterexample.  The claim says each of the four
ensure-resource-exists operations first attempts creation and, on an
already-exists conflict, returns the fetched existing resource.  Run on a
table that already exists, the BigQuery table operation issues a fetch as
its first (and only) call — not a creation attempt — and returns `None`
rather than the fetched table, refuting the claim for that resource kind. -/
theorem claim_C1_counterexample :
    ¬ ((create_bigquery_external_table_from_csv PROJECT_ID BIGQUERY_DATASET_ID "data1"
        "gs://your-csv-source-bucket/csv_data/data1.csv" 1
        (.success { table_id := "data1" }) (.success ())
        (.success { table_id := "data1" })).calls.head?.map ApiCall.isCreateAttempt =
      some true) ∧
    (create_bigquery_external_table_from_csv PROJECT_ID BIGQUERY_DATASET_ID "data1"
        "gs://your-csv-source-bucket/csv_data/data1.csv" 1
        (.success { table_id := "data1" }) (.success ())
        (.success { table_id := "data1" })).result = .ret none := by
  decide

/-- C1 (amended): the lake, zone, asset, and dataset operations all follow
the create-first pattern — their first API call is the creation attempt,
and when it reports a conflict they return the result of fetching the
existing resource.  The BigQuery table operation instead checks existence
first: its only call on the already-exists path is a fetch, after which it
returns `None`; it attempts creation (a load job) only when the fetch
reports not-found, and then returns the freshly fetched table. -/
theorem claim_C1_amended :
    (∀ p r i d cr gr, (create_dataplex_lake p r i d cr gr).calls.head? =
      some (.createLake ("projects/" ++ p ++ "/locations/" ++ r) i { display_name := d })) ∧
    (∀ p r i d g,
      (create_dataplex_lake p r i d (.raise .Conflict) (.success g)).result = .ret g) ∧
    (∀ p r l i d cr gr, (create_dataplex_zone p r l i d cr gr).calls.head? =
      some (.createZone ("projects/" ++ p ++ "/locations/" ++ r ++ "/lakes/" ++ l) i
        (zoneMessage r d))) ∧
    (∀ p r l i d g,
      (create_dataplex_zone p r l i d (.raise .Conflict) (.success g)).result = .ret g) ∧
    (∀ p r l z i b q cr gr, (create_dataplex_asset p r l z i b q cr gr).calls.head? =
      some (.createAsset
        ("projects/" ++ p ++ "/locations/" ++ r ++ "/lakes/" ++ l ++ "/zones/" ++ z) i
        (assetMessage p i b))) ∧
    (∀ p r l z i b q g,
      (create_dataplex_asset p r l z i b q (.raise .Conflict) (.success g)).result = .ret g) ∧
    (∀ p i r cr gr, (create_bigquery_dataset p i r cr gr).calls.head? =
      some (.createDataset { project := p, dataset_id := i, location := r })) ∧
    (∀ p i r g,
      (create_bigquery_dataset p i r (.raise .Conflict) (.success g)).result = .ret g) ∧
    (∀ p d t u n tv lr g2,
      (create_bigquery_external_table_from_csv p d t u n (.success tv) lr g2).calls =
        [.getTable p d t] ∧
      (create_bigquery_external_table_from_csv p d t u n (.success tv) lr g2).result =
        .ret none) ∧
    (∀ p d t u n tv,
      (create_bigquery_external_table_from_csv p d t u n (.raise .NotFound) (.success ())
          (.success tv)).calls =
        [.getTable p d t,
         .loadTableFromUri u p d t
           { source_format := .CSV, skip_leading_rows := n, autodetect := true,
             max_bad_records := 0 },
         .getTable p d t] ∧
      (create_bigquery_external_table_from_csv p d t u n (.raise .NotFound) (.success ())
          (.success tv)).result = .ret (some tv)) := by
  refine ⟨?_, ?_, ?_, ?_, ?_, ?_, ?_, ?_, ?_, ?_⟩
  · intro p r i d cr gr
    cases cr with
    | success x => rfl
    | raise e => cases e <;> cases gr <;> rfl
  · intro p r i d g; rfl
  · intro p r l i d cr gr
    cases cr with
    | success x => rfl
    | raise e => cases e <;> cases gr <;> rfl
  · intro p r l i d g; rfl
  · intro p r l z i b q cr gr
    cases cr with
    | success x => rfl
    | raise e => cases e <;> cases gr <;> rfl
  · intro p r l z i b q g; rfl
  · intro p i r cr gr
    cases cr with
    | success x => rfl
    | raise e => cases e <;> cases gr <;> rfl
  · intro p i r g; rfl
  · intro p d t u n tv lr g2; exact ⟨rfl, rfl⟩
  · intro p d t u n tv; exact ⟨rfl, rfl⟩

/-- C2: at a concrete input where the table does not yet exist, the
table-creation operation's calls include exactly one data-materialising
call, and it is the load job that copies the CSV's rows into the query
engine's managed storage; no issued call defines an external table reading
the data in place.  The function's own docstring promises an external
table, so the claim is right and the code is the slip. -/
theorem claim_C2_load_copies_into_managed_storage :
    (create_bigquery_external_table_from_csv PROJECT_ID BIGQUERY_DATASET_ID "allergies"
        "gs://your-csv-source-bucket/csv_data/allergies.csv" 1
        (.raise .NotFound) (.success ())
        (.success { table_id := "allergies" })).calls.filterMap materializationOf =
      [TableMaterialization.managedCopy] := by
  decide

/-- C7: counterexample.  The claim says the lake, zone, and asset creation
calls are each invoked with the fixed CSV discovery configuration; but the
lake creation call's request message has no CSV configuration at all. -/
theorem claim_C7_counterexample :
    ¬ (∀ c ∈ (create_dataplex_lake PROJECT_ID REGION LAKE_ID "My CSV Data Lake"
        (.success { display_name := "My CSV Data Lake" })
        (.success { display_name := "My CSV Data Lake" })).calls,
      ApiCall.csvConfig c = some fixedCsvOptions) := by
  decide

/-- C7 (amended): the zone and asset creation calls carry the fixed CSV
discovery configuration (one header row, comma delimiter, type inference
enabled) with discovery enabled; the lake creation call carries only a
display name and no CSV configuration. -/
theorem claim_C7_amended :
    (∀ r d, (zoneMessage r d).discovery_spec.csv_options = fixedCsvOptions ∧
      (zoneMessage r d).discovery_spec.enabled = true) ∧
    (∀ p i b, (assetMessage p i b).discovery_spec.csv_options = fixedCsvOptions ∧
      (assetMessage p i b).discovery_spec.enabled = true) ∧
    (∀ p r l i d cr gr,
      ((create_dataplex_zone p r l i d cr gr).calls.head?.bind ApiCall.csvConfig) =
        some fixedCsvOptions) ∧
    (∀ p r l z i b q cr gr,
      ((create_dataplex_asset p r l z i b q cr gr).calls.head?.bind ApiCall.csvConfig) =
        some fixedCsvOptions) ∧
    (∀ p r i d cr gr,
      ((create_dataplex_lake p r i d cr gr).calls.map ApiCall.csvConfig).all
        (fun o => o.isNone) = true) := by
  refine ⟨?_, ?_, ?_, ?_, ?_⟩
  · intro r d; exact ⟨rfl, rfl⟩
  · intro p i b; exact ⟨rfl, rfl⟩
  · intro p r l i d cr gr
    cases cr with
    | success x => rfl
    | raise e => cases e <;> cases gr <;> rfl
  · intro p r l z i b q cr gr
    cases cr with
    | success x => rfl
    | raise e => cases e <;> cases gr <;> rfl
  · intro p r i d cr gr
    cases cr with
    | success x => rfl
    | raise e => cases e <;> cases gr <;> rfl

/-- C8: the table operation returns `None` on its already-exists path and
the fetched table on its creation path, whereas the lake, zone, asset, and
dataset operations return the fetched existing resource on their reuse
(conflict) paths. -/
theorem claim_C8_return_values :
    (∀ p d t u n tv lr g2,
      (create_bigquery_external_table_from_csv p d t u n (.success tv) lr g2).result =
        .ret none) ∧
    (∀ p d t u n tv,
      (create_bigquery_external_table_from_csv p d t u n (.raise .NotFound) (.success ())
        (.success tv)).result = .ret (some tv)) ∧
    (∀ p r i d g,
      (create_dataplex_lake p r i d (.raise .Conflict) (.success g)).result = .ret g) ∧
    (∀ p r l i d g,
      (create_dataplex_zone p r l i d (.raise .Conflict) (.success g)).result = .ret g) ∧
    (∀ p r l z i b q g,
      (create_dataplex_asset p r l z i b q (.raise .Conflict) (.success g)).result =
        .ret g) ∧
    (∀ p i r g,
      (create_bigquery_dataset p i r (.raise .Conflict) (.success g)).result = .ret g) :=
  ⟨fun _ _ _ _ _ _ _ _ => rfl, fun _ _ _ _ _ _ => rfl, fun _ _ _ _ _ => rfl,
   fun _ _ _ _ _ _ => rfl, fun _ _ _ _ _ _ _ _ => rfl, fun _ _ _ _ => rfl⟩

end Automate

namespace Automate

/-- C9: for every region string the zone's resource location type is
MULTI_REGION iff the string contains "us" or "eu" anywhere as a substring;
in particular the region "australia-southeast1" is classified MULTI_REGION
because "australia" contains "us". -/
theorem claim_C9_location_type :
    (∀ region d,
      (zoneMessage region d).resource_spec.location_type = LocationType.MULTI_REGION ↔
        (∃ l r : List Char, region.data = l ++ "us".data ++ r) ∨
        (∃ l r : List Char, region.data = l ++ "eu".data ++ r)) ∧
    (∀ d, (zoneMessage "australia-southeast1" d).resource_spec.location_type =
      LocationType.MULTI_REGION) := by
  constructor
  · intro region d
    have hrw : (zoneMessage region d).resource_spec.location_type =
        (if PyStr.pyIn "us" region || PyStr.pyIn "eu" region then
          LocationType.MULTI_REGION else LocationType.SINGLE_REGION) := rfl
    rw [hrw]
    rcases h : (PyStr.pyIn "us" region || PyStr.pyIn "eu" region) with _ | _
    · simp only [h, Bool.false_eq_true, if_false]
      constructor
      · intro hcontra
        exact absurd hcontra (by simp)
      · rintro (⟨l, r, hm⟩ | ⟨l, r, hm⟩)
        · have hx : PyStr.pyIn "us" region = true := PyStr.pyIn_iff.mpr ⟨l, r, hm⟩
          simp [hx] at h
        · have hx : PyStr.pyIn "eu" region = true := PyStr.pyIn_iff.mpr ⟨l, r, hm⟩
          simp [hx] at h
    · simp only [h, if_true]
      have hor : PyStr.pyIn "us" region = true ∨ PyStr.pyIn "eu" region = true := by
        simpa using h
      constructor
      · intro _
        rcases hor with hus | heu
        · exact Or.inl (PyStr.pyIn_iff.mp hus)
        · exact Or.inr (PyStr.pyIn_iff.mp heu)
      · intro _
        trivial
  · intro d
    rfl

/-- C5: starting from a service state without the lake id, the first call
creates the resource — exactly one creation, the state gains exactly this
id — and the second call with the same identifier creates nothing (the
state is unchanged): its create attempt is rejected with a conflict and it
returns the fetched existing resource via the already-exists branch. -/
theorem claim_C5_two_calls (st : List String) (p r i d : String) (h : i ∉ st) :
    (runLakeAgainstService st p r i d).1 = i :: st ∧
    (runLakeAgainstService st p r i d).2.result = .ret { display_name := d } ∧
    (runLakeAgainstService st p r i d).2.logs =
      [LogEvent.creating i, LogEvent.createdOk i] ∧
    (runLakeAgainstService (runLakeAgainstService st p r i d).1 p r i d).1 = i :: st ∧
    (runLakeAgainstService (runLakeAgainstService st p r i d).1 p r i d).2.logs =
      [LogEvent.alreadyExists i] ∧
    (runLakeAgainstService (runLakeAgainstService st p r i d).1 p r i d).2.calls =
      [ApiCall.createLake ("projects/" ++ p ++ "/locations/" ++ r) i { display_name := d },
       ApiCall.getLake ("projects/" ++ p ++ "/locations/" ++ r ++ "/lakes/" ++ i)] ∧
    (runLakeAgainstService (runLakeAgainstService st p r i d).1 p r i d).2.result =
      .ret { display_name := d } := by
  have h1 : (runLakeAgainstService st p r i d).1 = i :: st := by
    simp [runLakeAgainstService, h]
  refine ⟨h1, ?_, ?_, ?_, ?_, ?_, ?_⟩ <;>
    simp [h1, runLakeAgainstService, h, create_dataplex_lake]

/-- Witness for C5 at the script's own lake id against an empty service. -/
theorem claim_C5_two_calls_witness :
    ("my-csv-lake" ∉ ([] : List String)) ∧
    ((runLakeAgainstService [] "your-gcp-project-id" "us-central1" "my-csv-lake"
        "My CSV Data Lake").1 = ["my-csv-lake"] ∧
     (runLakeAgainstService [] "your-gcp-project-id" "us-central1" "my-csv-lake"
        "My CSV Data Lake").2.result = .ret { display_name := "My CSV Data Lake" } ∧
     (runLakeAgainstService [] "your-gcp-project-id" "us-central1" "my-csv-lake"
        "My CSV Data Lake").2.logs =
       [LogEvent.creating "my-csv-lake", LogEvent.createdOk "my-csv-lake"] ∧
     (runLakeAgainstService
        (runLakeAgainstService [] "your-gcp-project-id" "us-central1" "my-csv-lake"
          "My CSV Data Lake").1 "your-gcp-project-id" "us-central1" "my-csv-lake"
        "My CSV Data Lake").1 = ["my-csv-lake"] ∧
     (runLakeAgainstService
        (runLakeAgainstService [] "your-gcp-project-id" "us-central1" "my-csv-lake"
          "My CSV Data Lake").1 "your-gcp-project-id" "us-central1" "my-csv-lake"
        "My CSV Data Lake").2.logs = [LogEvent.alreadyExists "my-csv-lake"] ∧
     (runLakeAgainstService
        (runLakeAgainstService [] "your-gcp-project-id" "us-central1" "my-csv-lake"
          "My CSV Data Lake").1 "your-gcp-project-id" "us-central1" "my-csv-lake"
        "My CSV Data Lake").2.calls =
       [ApiCall.createLake ("projects/" ++ "your-gcp-project-id" ++ "/locations/" ++
          "us-central1") "my-csv-lake" { display_name := "My CSV Data Lake" },
        ApiCall.getLake ("projects/" ++ "your-gcp-project-id" ++ "/locations/" ++
          "us-central1" ++ "/lakes/" ++ "my-csv-lake")] ∧
     (runLakeAgainstService
        (runLakeAgainstService [] "your-gcp-project-id" "us-central1" "my-csv-lake"
          "My CSV Data Lake").1 "your-gcp-project-id" "us-central1" "my-csv-lake"
        "My CSV Data Lake").2.result = .ret { display_name := "My CSV Data Lake" }) :=
  ⟨by simp, claim_C5_two_calls [] "your-gcp-project-id" "us-central1" "my-csv-lake"
    "My CSV Data Lake" (by simp)⟩

end Automate

namespace ParquetConvert

/-- C3: every one of the 18 listed filenames is downloaded exactly once
from `synthea/<name>`, converted to Parquet exactly once, and uploaded
exactly once to `landing-parquet/<name with its .csv extension substituted
by .parquet>` — the output key mirrors the input key. -/
theorem claim_C3_mirrored_keys (f : String) (hf : f ∈ csv_files) :
    convertAll.count (GEvent.download ("synthea/" ++ f)) = 1 ∧
    convertAll.count (GEvent.convert ("/tmp/" ++ f) ("/tmp/" ++ substituteCsvExt f)) = 1 ∧
    convertAll.count (GEvent.upload ("landing-parquet/" ++ substituteCsvExt f)) = 1 := by
  fin_cases hf <;> decide

/-- Witness for C3 at the filename "patients.csv". -/
theorem claim_C3_mirrored_keys_witness :
    ("patients.csv" ∈ csv_files) ∧
    (convertAll.count (GEvent.download ("synthea/" ++ "patients.csv")) = 1 ∧
     convertAll.count (GEvent.convert ("/tmp/" ++ "patients.csv")
       ("/tmp/" ++ substituteCsvExt "patients.csv")) = 1 ∧
     convertAll.count
       (GEvent.upload ("landing-parquet/" ++ substituteCsvExt "patients.csv")) = 1) :=
  ⟨by decide, claim_C3_mirrored_keys "patients.csv" (by decide)⟩

end ParquetConvert

namespace Automate

/-- Events built from API calls and log lines contain no sleep. -/
theorem mem_call_log_not_sleep (cs : List ApiCall) (ls : List LogEvent) :
    ∀ e ∈ cs.map Event.call ++ ls.map Event.log, Event.isSleep e = false := by
  intro e he
  rcases List.mem_append.mp he with h | h
  · rcases List.mem_map.mp h with ⟨c, _, rfl⟩
    rfl
  · rcases List.mem_map.mp h with ⟨l, _, rfl⟩
    rfl

/-- Events built from non-BigQuery API calls and log lines contain no
BigQuery dataset or table step. -/
theorem mem_call_log_not_bq (cs : List ApiCall) (ls : List LogEvent)
    (hcs : (cs.all fun c => !c.isBq) = true) :
    ∀ e ∈ cs.map Event.call ++ ls.map Event.log, Event.isBqStep e = false := by
  intro e he
  rcases List.mem_append.mp he with h | h
  · rcases List.mem_map.mp h with ⟨c, hc, rfl⟩
    have hb := List.all_eq_true.mp hcs c hc
    simpa [Event.isBqStep] using hb
  · rcases List.mem_map.mp h with ⟨l, _, rfl⟩
    rfl

/-- The lake step issues no BigQuery call, whatever the responses. -/
theorem lake_calls_not_bq (p r i d : String) (cr gr : ApiResp Lake) :
    ((create_dataplex_lake p r i d cr gr).calls.all fun c => !c.isBq) = true := by
  cases cr with
  | success x => rfl
  | raise e => cases e <;> cases gr <;> rfl

/-- The zone step issues no BigQuery call, whatever the responses. -/
theorem zone_calls_not_bq (p r l i d : String) (cr gr : ApiResp Zone) :
    ((create_dataplex_zone p r l i d cr gr).calls.all fun c => !c.isBq) = true := by
  cases cr with
  | success x => rfl
  | raise e => cases e <;> cases gr <;> rfl

/-- The asset step issues no BigQuery call, whatever the responses. -/
theorem asset_calls_not_bq (p r l z i b q : String) (cr gr : ApiResp Asset) :
    ((create_dataplex_asset p r l z i b q cr gr).calls.all fun c => !c.isBq) = true := by
  cases cr with
  | success x => rfl
  | raise e => cases e <;> cases gr <;> rfl

/-- Upload-loop events are uploads and log lines only: never a sleep and
never a BigQuery step. -/
theorem uploadLoop_events_benign (env : Env) (fs : List String) :
    ∀ e ∈ (uploadLoop env fs).1, Event.isSleep e = false ∧ Event.isBqStep e = false := by
  induction fs with
  | nil => intro e he; simp [uploadLoop] at he
  | cons f rest ih =>
    intro e he
    cases hr : env.uploadResp f with
    | success a =>
      simp [uploadLoop, upload_csv_to_gcs, hr] at he
      rcases he with rfl | rfl | he
      · exact ⟨rfl, rfl⟩
      · exact ⟨rfl, rfl⟩
      · exact ih e he
    | raise ex =>
      simp [uploadLoop, upload_csv_to_gcs, hr] at he
      rcases he with rfl | rfl
      · exact ⟨rfl, rfl⟩
      · exact ⟨rfl, rfl⟩

/-- Table-loop events are API calls and log lines only: never a sleep. -/
theorem tableLoop_not_sleep (env : Env) (uris : List String) :
    ∀ e ∈ (tableLoop env uris).1, Event.isSleep e = false := by
  induction uris with
  | nil => intro e he; simp [tableLoop] at he
  | cons u rest ih =>
    intro e he
    simp only [tableLoop] at he
    split at he
    · rcases List.mem_append.mp he with h | h
      · exact mem_call_log_not_sleep _ _ e h
      · exact ih e h
    · exact mem_call_log_not_sleep _ _ e he

/-- C10: when the local CSV directory is missing, or it contains no
filename ending in ".csv", `main` prints the corresponding message and
returns normally, issuing no upload and no vendor API call at all. -/
theorem claim_C10_early_return (env : Env)
    (h : env.dirExists = false ∨
      env.listing.filter (fun f => PyStr.pyEndsWith f ".csv") = []) :
    ((mainRun env).1 = [Event.log (LogEvent.dirNotFound LOCAL_CSV_DIR)] ∨
     (mainRun env).1 = [Event.log (LogEvent.noCsvFiles LOCAL_CSV_DIR)]) ∧
    (mainRun env).2 = MainOutcome.normal ∧
    ∀ e ∈ (mainRun env).1, Event.isExternalAction e = false := by
  rcases h with h | h
  · refine ⟨Or.inl ?_, ?_, ?_⟩
    · simp [mainRun, h]
    · simp [mainRun, h]
    · intro e he
      simp [mainRun, h] at he
      subst he
      rfl
  · cases hd : env.dirExists with
    | false =>
      refine ⟨Or.inl ?_, ?_, ?_⟩
      · simp [mainRun, hd]
      · simp [mainRun, hd]
      · intro e he
        simp [mainRun, hd] at he
        subst he
        rfl
    | true =>
      refine ⟨Or.inr ?_, ?_, ?_⟩
      · simp [mainRun, hd, h]
      · simp [mainRun, hd, h]
      · intro e he
        simp [mainRun, hd, h] at he
        subst he
        rfl

/-- Witness for C10: the environment whose local directory is missing. -/
theorem claim_C10_early_return_witness :
    (envNoDir.dirExists = false ∨
      envNoDir.listing.filter (fun f => PyStr.pyEndsWith f ".csv") = []) ∧
    (((mainRun envNoDir).1 = [Event.log (LogEvent.dirNotFound LOCAL_CSV_DIR)] ∨
      (mainRun envNoDir).1 = [Event.log (LogEvent.noCsvFiles LOCAL_CSV_DIR)]) ∧
     (mainRun envNoDir).2 = MainOutcome.normal ∧
     ∀ e ∈ (mainRun envNoDir).1, Event.isExternalAction e = false) :=
  ⟨Or.inl rfl, claim_C10_early_return envNoDir (Or.inl rfl)⟩

end Automate

namespace Automate

/-- C4: counterexample.  When the table's existence check reports
not-found and the subsequent load job raises a server error, the exception
propagates unmodified — but the operation prints no error line, because the
load job runs inside the `except NotFound:` handler, past the reach of the
generic logging handler.  The "logs the exception" half of the claim is
therefore false for the table operation. -/
theorem claim_C4_counterexample :
    (create_bigquery_external_table_from_csv PROJECT_ID BIGQUERY_DATASET_ID "data1"
        "gs://your-csv-source-bucket/csv_data/data1.csv" 1 (.raise .NotFound)
        (.raise (.other "ServerError")) (.success { table_id := "data1" })).result =
      .raised (.other "ServerError") ∧
    ((create_bigquery_external_table_from_csv PROJECT_ID BIGQUERY_DATASET_ID "data1"
        "gs://your-csv-source-bucket/csv_data/data1.csv" 1 (.raise .NotFound)
        (.raise (.other "ServerError")) (.success { table_id := "data1" })).logs.all
      fun l => ! l.isError) = true := by
  decide

/-- C4 (amended): every exception other than the expected
conflict / already-exists condition propagates unmodified, and a failed
provisioning step halts the rest of the main sequence.  The logging half
holds for the create attempts of lake, zone, asset, and dataset and for
the table's initial existence check, but an exception raised by the
table's load job propagates without being logged. -/
theorem claim_C4_amended :
    (∀ p r i d e gr, e ≠ PyExc.Conflict →
      (create_dataplex_lake p r i d (.raise e) gr).result = .raised e ∧
      LogEvent.errorCreating i e ∈ (create_dataplex_lake p r i d (.raise e) gr).logs) ∧
    (∀ p r l i d e gr, e ≠ PyExc.Conflict →
      (create_dataplex_zone p r l i d (.raise e) gr).result = .raised e ∧
      LogEvent.errorCreating i e ∈ (create_dataplex_zone p r l i d (.raise e) gr).logs) ∧
    (∀ p r l z i b q e gr, e ≠ PyExc.Conflict →
      (create_dataplex_asset p r l z i b q (.raise e) gr).result = .raised e ∧
      LogEvent.errorCreating i e ∈
        (create_dataplex_asset p r l z i b q (.raise e) gr).logs) ∧
    (∀ p i r e gr, e ≠ PyExc.Conflict →
      (create_bigquery_dataset p i r (.raise e) gr).result = .raised e ∧
      LogEvent.errorCreating i e ∈ (create_bigquery_dataset p i r (.raise e) gr).logs) ∧
    (∀ p d t u n e lr g2, e ≠ PyExc.NotFound →
      (create_bigquery_external_table_from_csv p d t u n (.raise e) lr g2).result =
        .raised e ∧
      LogEvent.errorCreating t e ∈
        (create_bigquery_external_table_from_csv p d t u n (.raise e) lr g2).logs) ∧
    (∀ p d t u n e g2,
      (create_bigquery_external_table_from_csv p d t u n (.raise .NotFound) (.raise e)
        g2).result = .raised e ∧
      ((create_bigquery_external_table_from_csv p d t u n (.raise .NotFound) (.raise e)
        g2).logs.all fun l => ! l.isError) = true) ∧
    (∀ env e, (lakeOut env).result = .raised e →
      env.dirExists = true →
      env.listing.filter (fun f => PyStr.pyEndsWith f ".csv") ≠ [] →
      (uploadLoop env (env.listing.filter (fun f => PyStr.pyEndsWith f ".csv"))).2 =
        none →
      (mainRun env).2 = .raised e ∧
      (mainRun env).1 =
        (uploadLoop env (env.listing.filter (fun f => PyStr.pyEndsWith f ".csv"))).1 ++
          eventsOf (lakeOut env)) ∧
    (∀ env e, (zoneOut env).result = .raised e →
      (∃ l, (lakeOut env).result = .ret l) →
      env.dirExists = true →
      env.listing.filter (fun f => PyStr.pyEndsWith f ".csv") ≠ [] →
      (uploadLoop env (env.listing.filter (fun f => PyStr.pyEndsWith f ".csv"))).2 =
        none →
      (mainRun env).2 = .raised e ∧
      (mainRun env).1 =
        (uploadLoop env (env.listing.filter (fun f => PyStr.pyEndsWith f ".csv"))).1 ++
          eventsOf (lakeOut env) ++ eventsOf (zoneOut env)) ∧
    (∀ env e, (assetOut env).result = .raised e →
      (∃ l, (lakeOut env).result = .ret l) →
      (∃ z, (zoneOut env).result = .ret z) →
      env.dirExists = true →
      env.listing.filter (fun f => PyStr.pyEndsWith f ".csv") ≠ [] →
      (uploadLoop env (env.listing.filter (fun f => PyStr.pyEndsWith f ".csv"))).2 =
        none →
      (mainRun env).2 = .raised e ∧
      (mainRun env).1 =
        (uploadLoop env (env.listing.filter (fun f => PyStr.pyEndsWith f ".csv"))).1 ++
          eventsOf (lakeOut env) ++ eventsOf (zoneOut env) ++ eventsOf (assetOut env)) ∧
    (∀ env e, (datasetOut env).result = .raised e →
      (∃ l, (lakeOut env).result = .ret l) →
      (∃ z, (zoneOut env).result = .ret z) →
      (∃ a, (assetOut env).result = .ret a) →
      env.dirExists = true →
      env.listing.filter (fun f => PyStr.pyEndsWith f ".csv") ≠ [] →
      (uploadLoop env (env.listing.filter (fun f => PyStr.pyEndsWith f ".csv"))).2 =
        none →
      (mainRun env).2 = .raised e ∧
      (mainRun env).1 =
        (uploadLoop env (env.listing.filter (fun f => PyStr.pyEndsWith f ".csv"))).1 ++
          eventsOf (lakeOut env) ++ eventsOf (zoneOut env) ++ eventsOf (assetOut env) ++
          discoveryNotes ++ [Event.sleep 60] ++ eventsOf (datasetOut env)) ∧
    (∀ env e,
      (tableLoop env
        ((env.listing.filter (fun f => PyStr.pyEndsWith f ".csv")).map
          (fun f => "gs://" ++ GCS_BUCKET_NAME ++ "/csv_data/" ++ f))).2 = some e →
      (∃ l, (lakeOut env).result = .ret l) →
      (∃ z, (zoneOut env).result = .ret z) →
      (∃ a, (assetOut env).result = .ret a) →
      (∃ x, (datasetOut env).result = .ret x) →
      env.dirExists = true →
      env.listing.filter (fun f => PyStr.pyEndsWith f ".csv") ≠ [] →
      (uploadLoop env (env.listing.filter (fun f => PyStr.pyEndsWith f ".csv"))).2 =
        none →
      (mainRun env).2 = .raised e ∧
      (mainRun env).1 =
        (uploadLoop env (env.listing.filter (fun f => PyStr.pyEndsWith f ".csv"))).1 ++
          eventsOf (lakeOut env) ++ eventsOf (zoneOut env) ++ eventsOf (assetOut env) ++
          discoveryNotes ++ [Event.sleep 60] ++ eventsOf (datasetOut env) ++
          (tableLoop env
            ((env.listing.filter (fun f => PyStr.pyEndsWith f ".csv")).map
              (fun f => "gs://" ++ GCS_BUCKET_NAME ++ "/csv_data/" ++ f))).1) := by
  refine ⟨?_, ?_, ?_, ?_, ?_, ?_, ?_, ?_, ?_, ?_, ?_⟩
  · intro p r i d e gr he
    cases e with
    | Conflict => exact absurd rfl he
    | NotFound => exact ⟨rfl, by simp [create_dataplex_lake]⟩
    | other m => exact ⟨rfl, by simp [create_dataplex_lake]⟩
  · intro p r l i d e gr he
    cases e with
    | Conflict => exact absurd rfl he
    | NotFound => exact ⟨rfl, by simp [create_dataplex_zone]⟩
    | other m => exact ⟨rfl, by simp [create_dataplex_zone]⟩
  · intro p r l z i b q e gr he
    cases e with
    | Conflict => exact absurd rfl he
    | NotFound => exact ⟨rfl, by simp [create_dataplex_asset]⟩
    | other m => exact ⟨rfl, by simp [create_dataplex_asset]⟩
  · intro p i r e gr he
    cases e with
    | Conflict => exact absurd rfl he
    | NotFound => exact ⟨rfl, by simp [create_bigquery_dataset]⟩
    | other m => exact ⟨rfl, by simp [create_bigquery_dataset]⟩
  · intro p d t u n e lr g2 he
    cases e with
    | NotFound => exact absurd rfl he
    | Conflict =>
      exact ⟨rfl, by simp [create_bigquery_external_table_from_csv]⟩
    | other m =>
      exact ⟨rfl, by simp [create_bigquery_external_table_from_csv]⟩
  · intro p d t u n e g2
    exact ⟨rfl, rfl⟩
  · intro env e hlake hdir hne hup
    constructor
    · simp [mainRun, hdir, hne, hup, hlake]
    · simp [mainRun, hdir, hne, hup, hlake]
  · rintro env e hz ⟨l, hl⟩ hdir hne hup
    constructor
    · simp [mainRun, hdir, hne, hup, hl, hz]
    · simp [mainRun, hdir, hne, hup, hl, hz, List.append_assoc]
  · rintro env e ha ⟨l, hl⟩ ⟨z, hz⟩ hdir hne hup
    constructor
    · simp [mainRun, hdir, hne, hup, hl, hz, ha]
    · simp [mainRun, hdir, hne, hup, hl, hz, ha, List.append_assoc]
  · rintro env e hds ⟨l, hl⟩ ⟨z, hz⟩ ⟨a, ha⟩ hdir hne hup
    constructor
    · simp [mainRun, hdir, hne, hup, hl, hz, ha, hds]
    · simp [mainRun, hdir, hne, hup, hl, hz, ha, hds, List.append_assoc]
  · rintro env e ht ⟨l, hl⟩ ⟨z, hz⟩ ⟨a, ha⟩ ⟨x, hx⟩ hdir hne hup
    constructor
    · simp [mainRun, hdir, hne, hup, hl, hz, ha, hx, ht]
    · simp [mainRun, hdir, hne, hup, hl, hz, ha, hx, ht, List.append_assoc]

/-- Witness for C4 at concrete inputs: a server error on each create
attempt is logged and re-raised, and — via one failing environment per
provisioning step — a failure of the lake, zone, asset, dataset, or table
step halts `main` right after that step's events. -/
theorem claim_C4_amended_witness :
    (PyExc.other "boom" ≠ PyExc.Conflict) ∧
    ((create_dataplex_lake "p" "r" "lk" "d" (.raise (.other "boom"))
        (.success { display_name := "d" })).result = .raised (.other "boom") ∧
      LogEvent.errorCreating "lk" (.other "boom") ∈
        (create_dataplex_lake "p" "r" "lk" "d" (.raise (.other "boom"))
          (.success { display_name := "d" })).logs) ∧
    ((create_dataplex_zone "p" "r" "l" "zn" "d" (.raise (.other "boom"))
        (.success (zoneMessage "r" "d"))).result = .raised (.other "boom") ∧
      LogEvent.errorCreating "zn" (.other "boom") ∈
        (create_dataplex_zone "p" "r" "l" "zn" "d" (.raise (.other "boom"))
          (.success (zoneMessage "r" "d"))).logs) ∧
    ((create_dataplex_asset "p" "r" "l" "z" "a" "b" "q" (.raise (.other "boom"))
        (.success (assetMessage "p" "a" "b"))).result = .raised (.other "boom") ∧
      LogEvent.errorCreating "a" (.other "boom") ∈
        (create_dataplex_asset "p" "r" "l" "z" "a" "b" "q" (.raise (.other "boom"))
          (.success (assetMessage "p" "a" "b"))).logs) ∧
    ((create_bigquery_dataset "p" "ds" "r" (.raise (.other "boom"))
        (.success { project := "p", dataset_id := "ds", location := "r" })).result =
        .raised (.other "boom") ∧
      LogEvent.errorCreating "ds" (.other "boom") ∈
        (create_bigquery_dataset "p" "ds" "r" (.raise (.other "boom"))
          (.success { project := "p", dataset_id := "ds", location := "r" })).logs) ∧
    (PyExc.Conflict ≠ PyExc.NotFound) ∧
    ((create_bigquery_external_table_from_csv "p" "ds" "t" "u" 1 (.raise .Conflict)
        (.success ()) (.success { table_id := "t" })).result = .raised .Conflict ∧
      LogEvent.errorCreating "t" PyExc.Conflict ∈
        (create_bigquery_external_table_from_csv "p" "ds" "t" "u" 1 (.raise .Conflict)
          (.success ()) (.success { table_id := "t" })).logs) ∧
    ((lakeOut envLakeBoom).result = .raised (.other "server error")) ∧
    ((mainRun envLakeBoom).2 = .raised (.other "server error") ∧
      (mainRun envLakeBoom).1 =
        (uploadLoop envLakeBoom
          (envLakeBoom.listing.filter (fun f => PyStr.pyEndsWith f ".csv"))).1 ++
          eventsOf (lakeOut envLakeBoom)) ∧
    ((zoneOut envZoneBoom).result = .raised (.other "server error")) ∧
    ((mainRun envZoneBoom).2 = .raised (.other "server error") ∧
      (mainRun envZoneBoom).1 =
        (uploadLoop envZoneBoom
          (envZoneBoom.listing.filter (fun f => PyStr.pyEndsWith f ".csv"))).1 ++
          eventsOf (lakeOut envZoneBoom) ++ eventsOf (zoneOut envZoneBoom)) ∧
    ((assetOut envAssetBoom).result = .raised (.other "server error")) ∧
    ((mainRun envAssetBoom).2 = .raised (.other "server error") ∧
      (mainRun envAssetBoom).1 =
        (uploadLoop envAssetBoom
          (envAssetBoom.listing.filter (fun f => PyStr.pyEndsWith f ".csv"))).1 ++
          eventsOf (lakeOut envAssetBoom) ++ eventsOf (zoneOut envAssetBoom) ++
          eventsOf (assetOut envAssetBoom)) ∧
    ((datasetOut envDatasetBoom).result = .raised (.other "server error")) ∧
    ((mainRun envDatasetBoom).2 = .raised (.other "server error") ∧
      (mainRun envDatasetBoom).1 =
        (uploadLoop envDatasetBoom
          (envDatasetBoom.listing.filter (fun f => PyStr.pyEndsWith f ".csv"))).1 ++
          eventsOf (lakeOut envDatasetBoom) ++ eventsOf (zoneOut envDatasetBoom) ++
          eventsOf (assetOut envDatasetBoom) ++ discoveryNotes ++ [Event.sleep 60] ++
          eventsOf (datasetOut envDatasetBoom)) ∧
    ((tableLoop envTableBoom
        ((envTableBoom.listing.filter (fun f => PyStr.pyEndsWith f ".csv")).map
          (fun f => "gs://" ++ GCS_BUCKET_NAME ++ "/csv_data/" ++ f))).2 =
      some (.other "server error")) ∧
    ((mainRun envTableBoom).2 = .raised (.other "server error") ∧
      (mainRun envTableBoom).1 =
        (uploadLoop envTableBoom
          (envTableBoom.listing.filter (fun f => PyStr.pyEndsWith f ".csv"))).1 ++
          eventsOf (lakeOut envTableBoom) ++ eventsOf (zoneOut envTableBoom) ++
          eventsOf (assetOut envTableBoom) ++ discoveryNotes ++ [Event.sleep 60] ++
          eventsOf (datasetOut envTableBoom) ++
          (tableLoop envTableBoom
            ((envTableBoom.listing.filter (fun f => PyStr.pyEndsWith f ".csv")).map
              (fun f => "gs://" ++ GCS_BUCKET_NAME ++ "/csv_data/" ++ f))).1) :=
  ⟨by decide,
   claim_C4_amended.1 "p" "r" "lk" "d" (.other "boom")
     (.success { display_name := "d" }) (by decide),
   claim_C4_amended.2.1 "p" "r" "l" "zn" "d" (.other "boom")
     (.success (zoneMessage "r" "d")) (by decide),
   claim_C4_amended.2.2.1 "p" "r" "l" "z" "a" "b" "q" (.other "boom")
     (.success (assetMessage "p" "a" "b")) (by decide),
   claim_C4_amended.2.2.2.1 "p" "ds" "r" (.other "boom")
     (.success { project := "p", dataset_id := "ds", location := "r" }) (by decide),
   by decide,
   claim_C4_amended.2.2.2.2.1 "p" "ds" "t" "u" 1 .Conflict (.success ())
     (.success { table_id := "t" }) (by decide),
   rfl,
   claim_C4_amended.2.2.2.2.2.2.1 envLakeBoom (.other "server error") rfl rfl
     (by decide) rfl,
   rfl,
   claim_C4_amended.2.2.2.2.2.2.2.1 envZoneBoom (.other "server error") rfl
     ⟨{ display_name := "My CSV Data Lake" }, rfl⟩ rfl (by decide) rfl,
   rfl,
   claim_C4_amended.2.2.2.2.2.2.2.2.1 envAssetBoom (.other "server error") rfl
     ⟨{ display_name := "My CSV Data Lake" }, rfl⟩
     ⟨zoneMessage REGION "Raw CSV Zone", rfl⟩ rfl (by decide) rfl,
   rfl,
   claim_C4_amended.2.2.2.2.2.2.2.2.2.1 envDatasetBoom (.other "server error") rfl
     ⟨{ display_name := "My CSV Data Lake" }, rfl⟩
     ⟨zoneMessage REGION "Raw CSV Zone", rfl⟩
     ⟨assetMessage PROJECT_ID ASSET_ID GCS_BUCKET_NAME, rfl⟩ rfl (by decide) rfl,
   rfl,
   claim_C4_amended.2.2.2.2.2.2.2.2.2.2 envTableBoom (.other "server error") rfl
     ⟨{ display_name := "My CSV Data Lake" }, rfl⟩
     ⟨zoneMessage REGION "Raw CSV Zone", rfl⟩
     ⟨assetMessage PROJECT_ID ASSET_ID GCS_BUCKET_NAME, rfl⟩
     ⟨{ project := PROJECT_ID, dataset_id := BIGQUERY_DATASET_ID, location := REGION },
       rfl⟩ rfl (by decide) rfl⟩

end Automate

namespace Automate

/-- The asset step's creation attempt is always among its events. -/
theorem assetOut_create_mem (env : Env) :
    Event.call (ApiCall.createAsset
      ("projects/" ++ PROJECT_ID ++ "/locations/" ++ REGION ++ "/lakes/" ++ LAKE_ID ++
        "/zones/" ++ ZONE_ID) ASSET_ID
      (assetMessage PROJECT_ID ASSET_ID GCS_BUCKET_NAME)) ∈ eventsOf (assetOut env) := by
  cases hc : env.assetCreate with
  | success x => simp [assetOut, create_dataplex_asset, eventsOf, hc]
  | raise e =>
    cases e <;> cases hg : env.assetGet <;>
      simp [assetOut, create_dataplex_asset, eventsOf, hc, hg]

/-- The discovery prints before the sleep are log lines only. -/
theorem discoveryNotes_log_only :
    ∀ e ∈ discoveryNotes, Event.isSleep e = false ∧ Event.isBqStep e = false := by
  decide

/-- C6: in every execution that reaches and completes asset provisioning,
the trace splits around exactly one sleep event, of the fixed duration 60,
placed after the asset creation call and before every BigQuery dataset or
table step.  The environment gives `main` no signal about discovery
progress, and the sleep is the same literal 60 for every environment, so
the pause never depends on whether discovery has completed. -/
theorem claim_C6_unconditional_sleep (env : Env) (h : reachesAssetProvisioned env) :
    ∃ pre post, (mainRun env).1 = pre ++ Event.sleep 60 :: post ∧
      Event.call (ApiCall.createAsset
        ("projects/" ++ PROJECT_ID ++ "/locations/" ++ REGION ++ "/lakes/" ++ LAKE_ID ++
          "/zones/" ++ ZONE_ID) ASSET_ID
        (assetMessage PROJECT_ID ASSET_ID GCS_BUCKET_NAME)) ∈ pre ∧
      (∀ e ∈ pre, Event.isBqStep e = false) ∧
      (∀ e ∈ pre, Event.isSleep e = false) ∧
      (∀ e ∈ post, Event.isSleep e = false) := by
  obtain ⟨hdir, hne, hup, ⟨l, hl⟩, ⟨z, hz⟩, ⟨a, ha⟩⟩ := h
  have hA : ∃ post, (mainRun env).1 =
      ((uploadLoop env (env.listing.filter (fun f => PyStr.pyEndsWith f ".csv"))).1 ++
        eventsOf (lakeOut env) ++ eventsOf (zoneOut env) ++ eventsOf (assetOut env) ++
        discoveryNotes) ++ Event.sleep 60 :: post ∧
      (∀ e ∈ post, Event.isSleep e = false) := by
    cases hds : (datasetOut env).result with
    | raised e2 =>
      refine ⟨eventsOf (datasetOut env), ?_, ?_⟩
      · simp [mainRun, hdir, hne, hup, hl, hz, ha, hds, List.append_assoc]
      · intro e he
        exact mem_call_log_not_sleep _ _ e he
    | ret x =>
      cases ht : (tableLoop env
          ((env.listing.filter (fun f => PyStr.pyEndsWith f ".csv")).map
            (fun f => "gs://" ++ GCS_BUCKET_NAME ++ "/csv_data/" ++ f))).2 with
      | some e2 =>
        refine ⟨eventsOf (datasetOut env) ++ (tableLoop env
          ((env.listing.filter (fun f => PyStr.pyEndsWith f ".csv")).map
            (fun f => "gs://" ++ GCS_BUCKET_NAME ++ "/csv_data/" ++ f))).1, ?_, ?_⟩
        · simp [mainRun, hdir, hne, hup, hl, hz, ha, hds, ht, List.append_assoc]
        · intro e he
          rcases List.mem_append.mp he with h1 | h1
          · exact mem_call_log_not_sleep _ _ e h1
          · exact tableLoop_not_sleep env _ e h1
      | none =>
        refine ⟨eventsOf (datasetOut env) ++ (tableLoop env
          ((env.listing.filter (fun f => PyStr.pyEndsWith f ".csv")).map
            (fun f => "gs://" ++ GCS_BUCKET_NAME ++ "/csv_data/" ++ f))).1 ++
          completionNotes, ?_, ?_⟩
        · simp [mainRun, hdir, hne, hup, hl, hz, ha, hds, ht, List.append_assoc]
        · intro e he
          rcases List.mem_append.mp he with h1 | h1
          · rcases List.mem_append.mp h1 with h2 | h2
            · exact mem_call_log_not_sleep _ _ e h2
            · exact tableLoop_not_sleep env _ e h2
          · simp [completionNotes] at h1
            subst h1
            rfl
  obtain ⟨post, hmain, hpost⟩ := hA
  refine ⟨_, post, hmain, ?_, ?_, ?_, hpost⟩
  · exact List.mem_append.mpr (Or.inl (List.mem_append.mpr (Or.inr
      (assetOut_create_mem env))))
  · intro e he
    rcases List.mem_append.mp he with h1 | h1
    · rcases List.mem_append.mp h1 with h2 | h2
      · rcases List.mem_append.mp h2 with h3 | h3
        · rcases List.mem_append.mp h3 with h4 | h4
          · exact (uploadLoop_events_benign env _ e h4).2
          · exact mem_call_log_not_bq _ _
              (lake_calls_not_bq PROJECT_ID REGION LAKE_ID "My CSV Data Lake"
                env.lakeCreate env.lakeGet) e h4
        · exact mem_call_log_not_bq _ _
            (zone_calls_not_bq PROJECT_ID REGION LAKE_ID ZONE_ID "Raw CSV Zone"
              env.zoneCreate env.zoneGet) e h3
      · exact mem_call_log_not_bq _ _
          (asset_calls_not_bq PROJECT_ID REGION LAKE_ID ZONE_ID ASSET_ID GCS_BUCKET_NAME
            BIGQUERY_DATASET_ID env.assetCreate env.assetGet) e h2
    · exact (discoveryNotes_log_only e h1).2
  · intro e he
    rcases List.mem_append.mp he with h1 | h1
    · rcases List.mem_append.mp h1 with h2 | h2
      · rcases List.mem_append.mp h2 with h3 | h3
        · rcases List.mem_append.mp h3 with h4 | h4
          · exact (uploadLoop_events_benign env _ e h4).1
          · exact mem_call_log_not_sleep _ _ e h4
        · exact mem_call_log_not_sleep _ _ e h3
      · exact mem_call_log_not_sleep _ _ e h2
    · exact (discoveryNotes_log_only e h1).1

/-- Witness for C6: the fully successful single-file environment reaches
asset provisioning, and its trace contains the fixed sleep as stated. -/
theorem claim_C6_unconditional_sleep_witness :
    reachesAssetProvisioned envOk ∧
    (∃ pre post, (mainRun envOk).1 = pre ++ Event.sleep 60 :: post ∧
      Event.call (ApiCall.createAsset
        ("projects/" ++ PROJECT_ID ++ "/locations/" ++ REGION ++ "/lakes/" ++ LAKE_ID ++
          "/zones/" ++ ZONE_ID) ASSET_ID
        (assetMessage PROJECT_ID ASSET_ID GCS_BUCKET_NAME)) ∈ pre ∧
      (∀ e ∈ pre, Event.isBqStep e = false) ∧
      (∀ e ∈ pre, Event.isSleep e = false) ∧
      (∀ e ∈ post, Event.isSleep e = false)) :=
  have hr : reachesAssetProvisioned envOk :=
    ⟨rfl, by decide, rfl, ⟨{ display_name := "My CSV Data Lake" }, rfl⟩,
     ⟨zoneMessage REGION "Raw CSV Zone", rfl⟩,
     ⟨assetMessage PROJECT_ID ASSET_ID GCS_BUCKET_NAME, rfl⟩⟩
  ⟨hr, claim_C6_unconditional_sleep envOk hr⟩

end Automate
